import Mathlib

/-!
Shallow embedding of the Fixie Railway backend (Python/FastAPI support-chat
service) for checking its natural-language specification.

The embedding models, from the source files:
* `config.py` — the configuration record and its "unset key" sentinels;
* `agents.py` — the `create_freshdesk_ticket` tool, the agent tool catalogs,
  the keyword router `supervisor_routing`, and `create_ticket_directly`;
* `langgraph_workflow.py` — the `create_support_ticket` tool, the chatbot
  tool catalog, and the chatbot/tools graph loop with `should_continue`;
* `main.py` — the `/chat` endpoint dispatch (`chat_endpoint`), its in-memory
  message store, the main-flow keyword check, and its error handler.

External effects (the OpenAI model, the Freshdesk HTTP API) are parameters:
the model is a stub function, and one `requests.post` outcome is an explicit
`PostResult` value.  Each Freshdesk tool returns, besides its observation
text, the list of HTTP POST payloads it issued to the ticketing gateway, so
theorems can speak about when and with which arguments the gateway was
contacted.  Python exceptions are modelled with `Except`: the tool bodies can
raise, and the `try/except` wrappers convert every raise into an observation
string, exactly as in the source.
-/

namespace Fixie

/-! ## String machinery shared by the Python sources -/

/-- Python `str.lower()` (over the characters; the library `String.toLower`
is defined by well-founded recursion and does not evaluate in the kernel). -/
def pyLower (s : String) : String := String.mk (s.data.map Char.toLower)

/-- The whitespace characters Python `int()` strips. -/
def pyWhitespace (c : Char) : Bool := c == ' ' || c == '\t' || c == '\n' || c == '\r'

/-- Python `str.strip()` as `int()` applies it. -/
def pyTrim (s : String) : String :=
  String.mk (((s.data.dropWhile pyWhitespace).reverse.dropWhile pyWhitespace).reverse)

/-- Python's `needle in hay` substring test on strings, as a scan over the
character list (the Python sources use it on already-lowercased text). -/
def subScan (needle : List Char) : List Char → Bool
  | [] => needle.isEmpty
  | c :: t => needle.isPrefixOf (c :: t) || subScan needle t

/-- Scanning with `subScan` decides list infix (Python substring containment). -/
theorem subScan_iff (needle : List Char) :
    ∀ hay : List Char, subScan needle hay = true ↔ needle <:+: hay := by
  intro hay
  induction hay with
  | nil =>
    simp [subScan, List.isEmpty_iff, List.infix_nil]
  | cons c t ih =>
    simp only [subScan, Bool.or_eq_true, List.isPrefixOf_iff_prefix, ih,
      List.infix_cons_iff]

/-- Python `int(s)` on a string: optional surrounding whitespace, optional
sign, then a non-empty run of digits; anything else raises `ValueError`
(modelled as `none`). -/
def pyInt (s : String) : Option Int :=
  let t := pyTrim s
  let core : Int × List Char :=
    match t.data with
    | '-' :: rest => (-1, rest)
    | '+' :: rest => (1, rest)
    | l => (1, l)
  if core.2.isEmpty then none
  else if core.2.all Char.isDigit then
    some (core.1 * Int.ofNat (core.2.foldl (fun acc c => acc * 10 + (c.toNat - '0'.toNat)) 0))
  else none

/-- A Python regex `\w` word character (ASCII fragment, which is all the
sources ever produce in the scanned texts). -/
def wordChar (c : Char) : Bool := c.isAlphanum || c == '_'

/-- Python `re.search(r'Ticket ID:\*\* #(\w+)', s)` capture: scan for the first
position where the literal `Ticket ID:** #` is followed by at least one word
character, and return the maximal word-character run there. -/
def ticketIdScan (pat : List Char) : List Char → Option String
  | [] => none
  | c :: t =>
    if pat.isPrefixOf (c :: t) then
      let run := ((c :: t).drop pat.length).takeWhile wordChar
      if run.isEmpty then ticketIdScan pat t else some (String.mk run)
    else ticketIdScan pat t

/-- The ticket-id extraction used by `create_ticket_directly`,
`run_multi_agent_workflow` and `create_ticket_with_approval`. -/
def findTicketId (s : String) : Option String :=
  ticketIdScan "Ticket ID:** #".data s.data

/-- The success test `"✅" in result` used to derive the success flag. -/
def hasCheck (s : String) : Bool := subScan "✅".data s.data

/-! ## Configuration (`config.py`) -/

/-- The Freshdesk part of `Config` (`config.py`).  `getenv` defaults mean the
fields are always strings; the sentinel `"your-freshdesk-api-key-here"` marks
an unset key. -/
structure PyConfig where
  freshdeskDomain : String
  freshdeskApiKey : String
  deriving DecidableEq, Repr

/-- The configuration guard used by both ticket tools:
`if not domain or not api_key or api_key == "your-freshdesk-api-key-here"`. -/
def cfgOK (cfg : PyConfig) : Bool :=
  !(cfg.freshdeskDomain == "" || cfg.freshdeskApiKey == ""
    || cfg.freshdeskApiKey == "your-freshdesk-api-key-here")

/-! ## Tool catalogs (`agents.py`, `langgraph_workflow.py`, `approval_workflow.py`) -/

/-- The three `@tool` functions defined across the repository. -/
inductive ToolName where
  | create_freshdesk_ticket
  | create_support_ticket
  | generate_ticket_details
  deriving DecidableEq, Repr

/-- Whether the tool's body issues an HTTP POST to the Freshdesk ticketing
gateway.  `create_freshdesk_ticket` (agents.py) and `create_support_ticket`
(langgraph_workflow.py) both call `requests.post(.../api/v2/tickets)`;
`generate_ticket_details` (approval_workflow.py) only formats a preview
string and performs no external call. -/
def invokesTicketingGateway : ToolName → Bool
  | .create_freshdesk_ticket => true
  | .create_support_ticket => true
  | .generate_ticket_details => false

/-- Catalog of `create_chat_agent` (agents.py): the chat LLM is used without
`bind_tools`, so its action catalog is empty. -/
def chat_agent_tools : List ToolName := []

/-- Catalog of `create_ticket_agent` (agents.py):
`llm.bind_tools([create_freshdesk_ticket])` and
`ToolNode([create_freshdesk_ticket])`. -/
def ticket_agent_tools : List ToolName := [.create_freshdesk_ticket]

/-- Catalog of `create_langgraph_workflow` (langgraph_workflow.py):
`llm.bind_tools([create_support_ticket])`. -/
def langgraph_chatbot_tools : List ToolName := [.create_support_ticket]

/-- Catalog of `create_approval_workflow` (approval_workflow.py):
`llm.bind_tools([generate_ticket_details])`. -/
def approval_workflow_tools : List ToolName := [.generate_ticket_details]

/-! ## Freshdesk gateway model -/

/-- The fields the Python code reads out of `response.json()`: the error
branch reads `.get('code')` and `.get('message')`, the success branch reads
`['id']` (raising `KeyError` when absent). -/
structure RespJson where
  code : Option String
  message : Option String
  id : Option String
  deriving DecidableEq, Repr

/-- A `requests` HTTP response as the code observes it: `status_code`, `ok`
(in `requests`, `ok` is `status_code < 400`), raw `text`, and the result of
`response.json()` (`none` when parsing raises). -/
structure HttpResponse where
  statusCode : Nat
  ok : Bool
  text : String
  jsonParse : Option RespJson
  deriving DecidableEq, Repr

/-- The behaviour of one `requests.post` call to the Freshdesk API. -/
inductive PostResult where
  | response (r : HttpResponse)
  | timeoutExc
  | connectionExc
  | otherExc (m : String)
  deriving DecidableEq, Repr

/-- The JSON payload both tools POST to `/api/v2/tickets`
(`ticket_data` in the sources; `status` is the constant 2). -/
structure FdPayload where
  description : String
  subject : String
  email : String
  priority : Int
  status : Nat
  deriving DecidableEq, Repr

/-- Python exceptions that can escape the tool bodies. -/
inductive PyExc where
  | valueError
  | keyError
  | timeout
  | connErr
  | otherExc (m : String)
  deriving DecidableEq, Repr

/-! ## `create_freshdesk_ticket` (agents.py) -/

/-- The success observation both tools format (identical f-string in
agents.py and langgraph_workflow.py). -/
def successText (domain tid subject : String) (p : Int) : String :=
  let priority_name :=
    if p == 1 then "Low" else if p == 2 then "Medium"
    else if p == 3 then "High" else if p == 4 then "Urgent" else "Medium"
  "✅ **Support ticket created successfully!**\n\n**Ticket ID:** #" ++ tid
    ++ "\n**Subject:** " ++ subject
    ++ "\n**Priority:** " ++ priority_name
    ++ "\n\n**View your ticket:** https://" ++ domain ++ "/a/tickets/" ++ tid
    ++ "\n\nOur IT support team will review your request and respond within 24 hours. You'll receive email updates as we work on your issue."

/-- Body of `create_freshdesk_ticket` (agents.py lines 39-121), i.e. the code
inside its `try`: raises are `.error`, returns are `.ok`; paired with the
list of POST payloads issued to the gateway. -/
def create_freshdesk_ticketB (subject description priority email : String)
    (cfg : PyConfig) (env : PostResult) : Except PyExc String × List FdPayload :=
  if !cfgOK cfg then
    (.ok "❌ Unable to create tickets due to configuration issues. Please contact support directly.", [])
  else
    match pyInt priority with
    | none => (.error .valueError, [])
    | some p =>
      let payload : FdPayload := ⟨description, subject, email, p, 2⟩
      match env with
      | .timeoutExc => (.error .timeout, [payload])
      | .connectionExc => (.error .connErr, [payload])
      | .otherExc m => (.error (.otherExc m), [payload])
      | .response r =>
        if !r.ok then
          match r.jsonParse with
          | none =>
            (.ok ("❌ Freshdesk API error " ++ toString r.statusCode ++ ": " ++ r.text), [payload])
          | some j =>
            if j.code == some "invalid_credentials" then
              (.ok "❌ Authentication failed with Freshdesk. Please check API credentials.", [payload])
            else if subScan "email".data (pyLower r.text).data then
              (.ok "❌ Email validation failed. Please provide a valid email address.", [payload])
            else
              (.ok ("❌ Freshdesk API error: " ++ j.message.getD "Unknown error"), [payload])
        else
          match r.jsonParse with
          | none => (.error (.otherExc "json decode error"), [payload])
          | some j =>
            match j.id with
            | none => (.error .keyError, [payload])
            | some tid => (.ok (successText cfg.freshdeskDomain tid subject p), [payload])

/-- Function `create_freshdesk_ticket` (agents.py): the body wrapped in its
`except Exception` handler, which converts every raise into a fixed
observation text.  The result is always `.ok`. -/
def create_freshdesk_ticketL (subject description priority email : String)
    (cfg : PyConfig) (env : PostResult) : Except PyExc String × List FdPayload :=
  let r := create_freshdesk_ticketB subject description priority email cfg env
  match r.fst with
  | .ok s => (.ok s, r.snd)
  | .error _ =>
    (.ok "❌ Unexpected error while creating ticket. Please contact support directly.", r.snd)

/-! ## `create_support_ticket` (langgraph_workflow.py) -/

/-- Body of `create_support_ticket` (langgraph_workflow.py lines 38-125):
identical control flow to `create_freshdesk_ticketB` with its own
configuration and authentication texts. -/
def create_support_ticketB (subject description priority email : String)
    (cfg : PyConfig) (env : PostResult) : Except PyExc String × List FdPayload :=
  if !cfgOK cfg then
    (.ok "I apologize, but I'm unable to create tickets at the moment due to configuration issues. Please contact support directly.", [])
  else
    match pyInt priority with
    | none => (.error .valueError, [])
    | some p =>
      let payload : FdPayload := ⟨description, subject, email, p, 2⟩
      match env with
      | .timeoutExc => (.error .timeout, [payload])
      | .connectionExc => (.error .connErr, [payload])
      | .otherExc m => (.error (.otherExc m), [payload])
      | .response r =>
        if !r.ok then
          match r.jsonParse with
          | none =>
            (.ok ("❌ Freshdesk API error " ++ toString r.statusCode ++ ": " ++ r.text), [payload])
          | some j =>
            if j.code == some "invalid_credentials" then
              (.ok "❌ Authentication failed with Freshdesk. Please check the API credentials.", [payload])
            else if subScan "email".data (pyLower r.text).data then
              (.ok "❌ Email validation failed. Please provide a valid email address.", [payload])
            else
              (.ok ("❌ Freshdesk API error: " ++ j.message.getD "Unknown error"), [payload])
        else
          match r.jsonParse with
          | none => (.error (.otherExc "json decode error"), [payload])
          | some j =>
            match j.id with
            | none => (.error .keyError, [payload])
            | some tid => (.ok (successText cfg.freshdeskDomain tid subject p), [payload])

/-- Function `create_support_ticket` (langgraph_workflow.py): the body wrapped in its
`except Timeout / except ConnectionError / except Exception` handlers
(lines 127-137), each converting the raise into a fixed observation text. -/
def create_support_ticketL (subject description priority email : String)
    (cfg : PyConfig) (env : PostResult) : Except PyExc String × List FdPayload :=
  let r := create_support_ticketB subject description priority email cfg env
  match r.fst with
  | .ok s => (.ok s, r.snd)
  | .error .timeout => (.ok "❌ Request timed out. Please try again.", r.snd)
  | .error .connErr => (.ok "❌ Cannot connect to Freshdesk. Please check your internet connection.", r.snd)
  | .error _ =>
    (.ok "❌ I encountered an unexpected error while creating your ticket. Please contact our support team directly.", r.snd)

/-! ## `create_ticket_directly` (agents.py lines 454-487) -/

/-- Shape of `request.ticketData` / the drafted ticket fields, as passed around by
main.py and agents.py (a dict with these four keys in the source). -/
structure TicketData where
  subject : String
  description : String
  priority : String
  email : String
  deriving DecidableEq, Repr

/-- Result dict of `create_ticket_directly` / `create_ticket_with_approval`. -/
structure DirectResult where
  success : Bool
  content : String
  ticketId : Option String
  ticketNumber : Option String
  deriving DecidableEq, Repr

/-- Function `create_ticket_directly(ticket_data, user_email)` (agents.py): invokes
the `create_freshdesk_ticket` tool with the draft's subject/description/
priority but with `email := user_email` (the function parameter, not the
draft's email field), then derives `success` from `"✅" in result` and the
ticket id from the `Ticket ID:** #(\w+)` regex.  Its own `except` branch
is reachable only if the tool raised, which the tool's handler prevents. -/
def create_ticket_directlyL (ticket_data : TicketData) (user_email : String)
    (cfg : PyConfig) (env : PostResult) : DirectResult × List FdPayload :=
  let r := create_freshdesk_ticketL ticket_data.subject ticket_data.description
    ticket_data.priority user_email cfg env
  match r.fst with
  | .ok result =>
    (⟨hasCheck result, result, findTicketId result, findTicketId result⟩, r.snd)
  | .error _ =>
    (⟨false, "❌ Error creating ticket. Please contact support directly.", none, none⟩, r.snd)

/-! ## Messages and the supervisor router (`agents.py`) -/

/-- A tool-call request on an assistant message (`tool_calls` entry; the
arguments are irrelevant to the control flow modelled here). -/
structure ToolCall where
  name : String
  deriving DecidableEq, Repr

/-- A LangChain message as the graphs see it: `HumanMessage`, `AIMessage`
(with `tool_calls`), or `ToolMessage`. -/
inductive GMsg where
  | userMsg (content : String)
  | aiMsg (content : String) (toolCalls : List ToolCall)
  | toolResult (content : String)
  deriving DecidableEq, Repr

/-- Field `.content` of a message. -/
def contentOf : GMsg → String
  | .userMsg c => c
  | .aiMsg c _ => c
  | .toolResult c => c

/-- Field `.tool_calls` of a message (empty on non-assistant messages). -/
def toolCallsOf : GMsg → List ToolCall
  | .aiMsg _ tcs => tcs
  | _ => []

/-- The keyword list of `supervisor_routing` (agents.py lines 341-344). -/
def agents_ticket_keywords : List String :=
  ["create ticket", "create a ticket", "open ticket", "submit ticket",
   "escalate", "human help", "support team", "manager"]

/-- Router `supervisor_routing(state)` (agents.py lines 335-351): lowercase the last
message's content (empty input when there is none) and route to `"ticket"`
iff any keyword of the fixed list occurs as a substring, else `"chat"`. -/
def supervisor_routing (msgs : List GMsg) : String :=
  let user_input :=
    match msgs.getLast? with
    | some m => pyLower (contentOf m)
    | none => ""
  if agents_ticket_keywords.any (fun k => subScan k.data user_input.data) then "ticket"
  else "chat"

/-! ## The chatbot/tools graph loop (`langgraph_workflow.py`) -/

/-- Predicate `should_continue(state)` (langgraph_workflow.py lines 186-195): continue
to the tools node iff the last message carries tool calls. -/
def should_continue (msgs : List GMsg) : Bool :=
  match msgs.getLast? with
  | some m => !(toolCallsOf m).isEmpty
  | none => false

/-- Outcome of running the compiled graph: either it reached `END`, or the
LangGraph runtime raised `GraphRecursionError` because the step budget
(`recursion_limit`, default 25 node executions) was exhausted. -/
inductive LoopOutcome where
  | finished (msgs : List GMsg)
  | recursionError (msgs : List GMsg)
  deriving DecidableEq, Repr

/-- The message history at the end of a run. -/
def msgsOf : LoopOutcome → List GMsg
  | .finished ms => ms
  | .recursionError ms => ms

/-- Whether the run ended in `GraphRecursionError`. -/
def isRecursionError : LoopOutcome → Bool
  | .recursionError _ => true
  | _ => false

/-- The graph of `create_langgraph_workflow` (langgraph_workflow.py lines
197-213): `START → chatbot`; `chatbot → tools` when `should_continue` says so,
else `END`; `tools → chatbot`.  `stub` is the Language Model Gateway (the
chatbot node's `llm_with_tools.invoke`), `exec` the Action Executor run by
the tools node, and `fuel` the runtime's remaining `recursion_limit` steps;
each node execution consumes one step and an exhausted budget raises. -/
def runChatbotLoop (stub : List GMsg → GMsg) (exec : ToolCall → String) :
    Nat → List GMsg → LoopOutcome
  | 0, msgs => .recursionError msgs
  | fuel + 1, msgs =>
    let response := stub msgs
    let msgs1 := msgs ++ [response]
    if should_continue msgs1 then
      match fuel with
      | 0 => .recursionError msgs1
      | fuel1 + 1 =>
        let obs := (toolCallsOf response).map (fun tc => GMsg.toolResult (exec tc))
        runChatbotLoop stub exec fuel1 (msgs1 ++ obs)
    else .finished msgs1

/-! ## The `/chat` endpoint (`main.py`) -/

/-- Model of `ChatRequest` (main.py lines 37-43), restricted to the fields the
endpoint's control flow reads.  `ticketData` is `some` when the caller sent
a (truthy) draft dict. -/
structure ChatRequest where
  conversationId : String
  message : String
  userId : Option String
  userEmail : Option String
  action : Option String
  ticketData : Option TicketData
  deriving DecidableEq, Repr

/-- Model of `ChatResponse` (main.py lines 45-55), with `interactiveButtons` reduced
to its presence (its content is a fixed function of the draft). -/
structure ChatResponse where
  success : Bool
  content : String
  conversationId : String
  needsApproval : Bool
  ticketSummary : Option String
  hasApprovalButtons : Bool
  ticketCreated : Bool
  ticketId : Option String
  ticketNumber : Option String
  deriving DecidableEq, Repr

/-- What the caller of `/chat` receives: a `ChatResponse`, or an
`HTTPException` (status, detail) raised by the error handler. -/
inductive EndpointOutcome where
  | resp (r : ChatResponse)
  | httpError (status : Nat) (detail : String)
  deriving DecidableEq, Repr

/-- A message stored in `messages_db` (role and content). -/
structure StoredMsg where
  role : String
  content : String
  deriving DecidableEq, Repr

/-- Result of what the two workflow runners (`run_approval_workflow`,
`run_multi_agent_workflow`) return to main.py: a result dict, or a raised
exception carrying `str(error)`.  Only the keys main.py reads are kept
(`content`, `needsApproval`, `ticketDetails`; the multi-agent runner has no
`ticketDetails` key, i.e. `none`). -/
inductive WorkflowResult where
  | ok (content : String) (needsApproval : Bool) (ticketDetails : Option TicketData)
  | exc (msg : String)
  deriving DecidableEq, Repr

/-- The external world of one `/chat` turn: what each workflow runner would
return if consulted, the Freshdesk configuration, and the behaviour of the
one possible direct `requests.post` to the ticketing gateway. -/
structure ChatEnv where
  approvalWf : WorkflowResult
  multiWf : WorkflowResult
  cfg : PyConfig
  post : PostResult

/-- Everything one `/chat` turn produces: the updated stored history for the
request's conversation, the outcome sent to the caller, and the POST payloads
issued to the ticketing gateway by code under the endpoint's own control
(i.e. by `create_ticket_directly`). -/
structure TurnResult where
  db : List StoredMsg
  outcome : EndpointOutcome
  gatewayPayloads : List FdPayload
  deriving Repr

/-- Python `request.userEmail or "user@example.com"`: `None` and the empty
string both fall back to the default. -/
def effDefault (v : Option String) (d : String) : String :=
  match v with
  | none => d
  | some s => if s == "" then d else s

/-- The keyword list of main.py's flow selection (line 159). -/
def main_ticket_keywords : List String :=
  ["create ticket", "create a ticket", "yes", "proceed", "confirm"]

/-- main.py lines 157-161: does the lowercased message contain any of the
main-flow ticket keywords? -/
def mainKeywordHit (message : String) : Bool :=
  main_ticket_keywords.any (fun k => subScan k.data (pyLower message).data)

/-- main.py lines 161-178: the workflow runner the normal flow consults. -/
def selectedWorkflow (req : ChatRequest) (env : ChatEnv) : WorkflowResult :=
  if mainKeywordHit req.message then env.approvalWf else env.multiWf

/-- The fixed decline acknowledgement (main.py line 118). -/
def declineMessage : String :=
  "I understand you don't want to create a ticket right now. Is there anything else I can help you with?"

/-- The normal chat flow of `chat_endpoint` (main.py lines 139-257) given the
result of the selected workflow runner: if the runner raised, the `except`
handler turns it into an `HTTPException` (401 when `"auth"` occurs in the
error text, else 500) with nothing stored; on success, the user and assistant
messages are stored and the approval prompt is attached when the runner
reported `needsApproval` together with `ticketDetails`. -/
def normalFlow (conversationId message : String) (db : List StoredMsg)
    (wf : WorkflowResult) : TurnResult :=
  match wf with
  | .exc m =>
    { db := db,
      outcome :=
        if subScan "auth".data (pyLower m).data then
          .httpError 401 "Authentication failed. Please refresh and try again."
        else
          .httpError 500 ("Sorry, I encountered an error: " ++ m),
      gatewayPayloads := [] }
  | .ok content needsApp details =>
    let base : ChatResponse :=
      { success := true, content := content,
        conversationId := conversationId,
        needsApproval := false, ticketSummary := none,
        hasApprovalButtons := false,
        ticketCreated := false, ticketId := none, ticketNumber := none }
    let response :=
      match details with
      | some d =>
        if needsApp then
          { base with
            needsApproval := true
            ticketSummary := some d.subject
            hasApprovalButtons := true }
        else base
      | none => base
    { db := db ++ [⟨"user", message⟩, ⟨"assistant", content⟩],
      outcome := .resp response,
      gatewayPayloads := [] }

/-- Endpoint `chat_endpoint` (main.py lines 65-257).  Branch order as in the source:
1. `action == 'approve_ticket' and request.ticketData` → direct filing via
   `create_ticket_directly`, store the assistant message, return;
2. `action == 'decline_ticket'` → fixed acknowledgement, store it, return;
3. otherwise the normal chat flow on the workflow selected by keyword. -/
def chat_endpoint (req : ChatRequest) (db : List StoredMsg) (env : ChatEnv) : TurnResult :=
  match req.action == some "approve_ticket", req.ticketData with
  | true, some td =>
    let user_email := effDefault req.userEmail "user@example.com"
    let r := create_ticket_directlyL td user_email env.cfg env.post
    { db := db ++ [⟨"assistant", r.fst.content⟩],
      outcome := .resp
        { success := true, content := r.fst.content,
          conversationId := req.conversationId,
          needsApproval := false, ticketSummary := none,
          hasApprovalButtons := false,
          ticketCreated := r.fst.success, ticketId := r.fst.ticketId,
          ticketNumber := r.fst.ticketNumber },
      gatewayPayloads := r.snd }
  | _, _ =>
    if req.action == some "decline_ticket" then
      { db := db ++ [⟨"assistant", declineMessage⟩],
        outcome := .resp
          { success := true, content := declineMessage,
            conversationId := req.conversationId,
            needsApproval := false, ticketSummary := none,
            hasApprovalButtons := false,
            ticketCreated := false, ticketId := none, ticketNumber := none },
        gatewayPayloads := [] }
    else
      normalFlow req.conversationId req.message db (selectedWorkflow req env)

/-! ## Helper lemmas -/

/-- Whether an executor result is a normal return (no escaped exception). -/
def exceptOk : Except PyExc String → Bool
  | .ok _ => true
  | .error _ => false

/-- The `create_freshdesk_ticket` wrapper never lets an exception escape. -/
theorem create_freshdesk_ticketL_ok (subject description priority email : String)
    (cfg : PyConfig) (env : PostResult) :
    exceptOk (create_freshdesk_ticketL subject description priority email cfg env).fst = true := by
  unfold create_freshdesk_ticketL
  cases h : (create_freshdesk_ticketB subject description priority email cfg env).fst <;>
    simp [exceptOk, h]

/-- The `create_support_ticket` wrapper never lets an exception escape. -/
theorem create_support_ticketL_ok (subject description priority email : String)
    (cfg : PyConfig) (env : PostResult) :
    exceptOk (create_support_ticketL subject description priority email cfg env).fst = true := by
  unfold create_support_ticketL
  cases h : (create_support_ticketB subject description priority email cfg env).fst with
  | ok s => simp [exceptOk, h]
  | error e => cases e <;> simp [exceptOk, h]

/-- The wrappers do not change the list of issued gateway payloads. -/
theorem create_freshdesk_ticketL_snd (subject description priority email : String)
    (cfg : PyConfig) (env : PostResult) :
    (create_freshdesk_ticketL subject description priority email cfg env).snd =
      (create_freshdesk_ticketB subject description priority email cfg env).snd := by
  unfold create_freshdesk_ticketL
  cases h : (create_freshdesk_ticketB subject description priority email cfg env).fst <;>
    simp [h]

/-- Same for the langgraph-side wrapper. -/
theorem create_support_ticketL_snd (subject description priority email : String)
    (cfg : PyConfig) (env : PostResult) :
    (create_support_ticketL subject description priority email cfg env).snd =
      (create_support_ticketB subject description priority email cfg env).snd := by
  unfold create_support_ticketL
  cases h : (create_support_ticketB subject description priority email cfg env).fst with
  | ok s => simp [h]
  | error e => cases e <;> simp [h]

/-- With a usable configuration and a parseable priority, the
`create_freshdesk_ticket` body issues exactly one gateway POST, whose payload
carries the given subject, description, parsed priority, email and status 2 —
whatever the gateway then does. -/
theorem create_freshdesk_ticketB_calls (subject description priority email : String)
    (cfg : PyConfig) (env : PostResult) (p : Int)
    (hc : cfgOK cfg = true) (hp : pyInt priority = some p) :
    (create_freshdesk_ticketB subject description priority email cfg env).snd =
      [⟨description, subject, email, p, 2⟩] := by
  unfold create_freshdesk_ticketB
  rw [hc, hp]
  cases env with
  | response r =>
    by_cases hok : r.ok
    · simp only [hok, Bool.not_true, Bool.false_eq_true, if_false]
      cases hj : r.jsonParse with
      | none => simp
      | some j => rcases hid : j.id with _ | tid <;> simp [hid]
    · simp only [Bool.not_eq_true] at hok
      simp only [hok, Bool.not_false, if_true]
      cases hj : r.jsonParse with
      | none => simp
      | some j =>
        by_cases hcode : j.code == some "invalid_credentials" <;>
          by_cases hem : subScan "email".data (pyLower r.text).data <;> simp_all
  | timeoutExc => simp
  | connectionExc => simp
  | otherExc m => simp

/-- Whether the endpoint outcome is a raised `HTTPException` rather than a
normal `ChatResponse`. -/
def isHttpError : EndpointOutcome → Bool
  | .httpError _ _ => true
  | _ => false

/-- Function `create_ticket_directly` issues exactly the gateway POSTs that its inner
`create_freshdesk_ticket` call issues. -/
theorem create_ticket_directlyL_snd (td : TicketData) (ue : String)
    (cfg : PyConfig) (env : PostResult) :
    (create_ticket_directlyL td ue cfg env).snd =
      (create_freshdesk_ticketB td.subject td.description td.priority ue cfg env).snd := by
  unfold create_ticket_directlyL
  cases h : (create_freshdesk_ticketL td.subject td.description td.priority ue cfg env).fst <;>
    simp [h, create_freshdesk_ticketL_snd]

/-! ## Concrete sample values used by counterexamples and witnesses -/

/-- A usable Freshdesk configuration (domain and real API key set). -/
def goodCfg : PyConfig := ⟨"yourco.freshdesk.com", "key123"⟩

/-- A successful gateway response carrying ticket id 42. -/
def okPost : PostResult := .response ⟨201, true, "", some ⟨none, none, some "42"⟩⟩

/-- A drafted ticket whose email field is `a@b.com`. -/
def draftC2 : TicketData :=
  ⟨"Printer broken", "The office printer is broken", "2", "a@b.com"⟩

/-- An approval turn: `action = approve_ticket`, the draft above, and a
request `userEmail` different from the draft's email. -/
def reqC2 : ChatRequest :=
  ⟨"conv-1", "ok", some "u1", some "c@d.com", some "approve_ticket", some draftC2⟩

/-- One environment for the approval turn. -/
def envC2 : ChatEnv := ⟨.ok "wa" false none, .ok "wm" false none, goodCfg, okPost⟩

/-- A second environment with entirely different workflow-runner behaviour
but the same configuration and gateway. -/
def envC2x : ChatEnv := ⟨.exc "boom", .ok "different" true none, goodCfg, okPost⟩

/-! ## Claim theorems -/

/-- C1 counterexample: the ticket-analysis behavior's action catalog
(`create_ticket_agent` in agents.py, which binds `create_freshdesk_ticket`
into both `bind_tools` and its executing `ToolNode`) contains the ticket-
filing action — the action that issues the gateway POST — so the claim that
`fileTicket` is absent from every Specialist Behavior's catalog is false. -/
theorem C1_cex :
    ToolName.create_freshdesk_ticket ∈ ticket_agent_tools ∧
      invokesTicketingGateway ToolName.create_freshdesk_ticket = true := by
  decide

/-- C1 amended: the filing action is absent from the general chat behavior's
catalog (empty) and from the approval workflow's drafting catalog (draft-only
`generate_ticket_details`); but the ticket-analysis behavior's catalog is
exactly `[create_freshdesk_ticket]` and the langgraph chatbot's catalog is
exactly `[create_support_ticket]`, both gateway-invoking actions, so a
model-chosen action in those behaviors can invoke the Ticketing Gateway. -/
theorem C1_thm :
    chat_agent_tools.all (fun t => !invokesTicketingGateway t) = true ∧
    approval_workflow_tools.all (fun t => !invokesTicketingGateway t) = true ∧
    ticket_agent_tools = [ToolName.create_freshdesk_ticket] ∧
    langgraph_chatbot_tools = [ToolName.create_support_ticket] ∧
    invokesTicketingGateway ToolName.create_freshdesk_ticket = true ∧
    invokesTicketingGateway ToolName.create_support_ticket = true := by
  decide

/-- C3: for every message list whose last element is the latest user message
`m`, `supervisor_routing` answers `"ticket"` exactly when some keyword of the
fixed escalation list occurs as a substring of the lowercased message,
answers `"chat"` exactly otherwise, and its answer depends only on that
latest message. -/
theorem C3_thm (msgs : List GMsg) (m : GMsg) (h : msgs.getLast? = some m) :
    (supervisor_routing msgs = "ticket" ↔
      ∃ k ∈ agents_ticket_keywords, k.data <:+: (pyLower (contentOf m)).data) ∧
    (supervisor_routing msgs = "chat" ↔
      ¬ ∃ k ∈ agents_ticket_keywords, k.data <:+: (pyLower (contentOf m)).data) ∧
    (∀ msgs' : List GMsg, msgs'.getLast? = some m →
      supervisor_routing msgs' = supervisor_routing msgs) := by
  have route_eq : ∀ ms : List GMsg, ms.getLast? = some m →
      supervisor_routing ms =
        (if agents_ticket_keywords.any
            (fun k => subScan k.data (pyLower (contentOf m)).data) then "ticket" else "chat") := by
    intro ms hms
    unfold supervisor_routing
    rw [hms]
  have hkey : (agents_ticket_keywords.any
      (fun k => subScan k.data (pyLower (contentOf m)).data) = true) ↔
      ∃ k ∈ agents_ticket_keywords, k.data <:+: (pyLower (contentOf m)).data := by
    rw [List.any_eq_true]
    constructor
    · rintro ⟨k, hk, hs⟩
      exact ⟨k, hk, (subScan_iff k.data _).mp hs⟩
    · rintro ⟨k, hk, hs⟩
      exact ⟨k, hk, (subScan_iff k.data _).mpr hs⟩
  refine ⟨?_, ?_, ?_⟩
  · rw [route_eq msgs h, ← hkey]
    by_cases hb : agents_ticket_keywords.any
        (fun k => subScan k.data (pyLower (contentOf m)).data) = true <;>
      simp [hb]
  · rw [route_eq msgs h, ← hkey]
    by_cases hb : agents_ticket_keywords.any
        (fun k => subScan k.data (pyLower (contentOf m)).data) = true <;>
      simp [hb]
  · intro msgs' h'
    rw [route_eq msgs' h', route_eq msgs h]

/-- C3 witness: a concrete run of the router — a turn whose latest message
asks to escalate routes to the ticket agent. -/
theorem C3_witness :
    supervisor_routing [GMsg.userMsg "Please ESCALATE this to a human"] = "ticket" := by
  have h := C3_thm [GMsg.userMsg "Please ESCALATE this to a human"]
    (GMsg.userMsg "Please ESCALATE this to a human") rfl
  exact h.1.mpr ⟨"escalate", by decide,
    (subScan_iff "escalate".data _).mp (by decide)⟩

/-- C2 counterexample: an approval turn whose draft carries email `a@b.com`
but whose request `userEmail` is `c@d.com` invokes the gateway with
`c@d.com` — the drafted email is *not* the one filed, so "subject,
description, priority, and email unchanged" is false as stated. -/
theorem C2_cex :
    draftC2.email = "a@b.com" ∧
    (chat_endpoint reqC2 [] envC2).gatewayPayloads =
      [⟨"The office printer is broken", "Printer broken", "c@d.com", 2, 2⟩] ∧
    ("c@d.com" : String) ≠ "a@b.com" := by
  decide

/-- C2 amended: a turn carrying `action = approve_ticket` together with a
draft is handled by the privileged filing path alone — the outcome is
unchanged under arbitrary changes to both workflow runners (the Router and
Specialist Behaviors are not consulted) — and, when the configuration is
usable and the drafted priority parses, the Ticketing Gateway is invoked
exactly once with the drafted subject, description and priority unchanged,
but with the email taken from the request's `userEmail` (default
`user@example.com`), not from the draft. -/
theorem C2_thm (req : ChatRequest) (db : List StoredMsg) (env env' : ChatEnv)
    (td : TicketData) (p : Int)
    (ha : req.action = some "approve_ticket") (ht : req.ticketData = some td)
    (hcfg : env'.cfg = env.cfg) (hpost : env'.post = env.post)
    (hc : cfgOK env.cfg = true) (hp : pyInt td.priority = some p) :
    chat_endpoint req db env = chat_endpoint req db env' ∧
    (chat_endpoint req db env).gatewayPayloads =
      [⟨td.description, td.subject,
        effDefault req.userEmail "user@example.com", p, 2⟩] := by
  constructor
  · unfold chat_endpoint
    rw [ha, ht]
    simp only [beq_self_eq_true]
    rw [hcfg, hpost]
  · have hproj : (chat_endpoint req db env).gatewayPayloads =
        (create_ticket_directlyL td (effDefault req.userEmail "user@example.com")
          env.cfg env.post).snd := by
      unfold chat_endpoint
      rw [ha, ht]
      simp
    rw [hproj, create_ticket_directlyL_snd,
      create_freshdesk_ticketB_calls _ _ _ _ _ _ p hc hp]

/-- C2 witness: the amended theorem at the concrete approval turn — the
outcome ignores the workflow runners and the single gateway payload carries
the draft's subject/description/priority with the request's email. -/
theorem C2_witness :
    chat_endpoint reqC2 [] envC2 = chat_endpoint reqC2 [] envC2x ∧
    (chat_endpoint reqC2 [] envC2).gatewayPayloads =
      [⟨"The office printer is broken", "Printer broken", "c@d.com", 2, 2⟩] := by
  have h := C2_thm reqC2 [] envC2 envC2x draftC2 2 rfl rfl rfl rfl (by decide) (by decide)
  exact ⟨h.1, h.2⟩

/-- C7: every turn whose request carries `action = decline_ticket` produces
exactly the fixed acknowledgement text, appends only that acknowledgement to
the stored history, issues no gateway call, and reports neither a created
ticket nor an awaiting-approval flag. -/
theorem C7_thm (req : ChatRequest) (db : List StoredMsg) (env : ChatEnv)
    (h : req.action = some "decline_ticket") :
    chat_endpoint req db env =
      { db := db ++ [⟨"assistant", declineMessage⟩],
        outcome := .resp
          { success := true, content := declineMessage,
            conversationId := req.conversationId,
            needsApproval := false, ticketSummary := none,
            hasApprovalButtons := false,
            ticketCreated := false, ticketId := none, ticketNumber := none },
        gatewayPayloads := [] } := by
  cases htd : req.ticketData <;> simp [chat_endpoint, h, htd]

/-- C7 witness: a concrete decline turn (even one still carrying the draft)
returns the fixed acknowledgement with no ticket created. -/
theorem C7_witness :
    chat_endpoint ⟨"conv-2", "no thanks", some "u1", some "c@d.com",
        some "decline_ticket", some draftC2⟩ [] envC2 =
      { db := [⟨"assistant", declineMessage⟩],
        outcome := .resp
          { success := true, content := declineMessage,
            conversationId := "conv-2",
            needsApproval := false, ticketSummary := none,
            hasApprovalButtons := false,
            ticketCreated := false, ticketId := none, ticketNumber := none },
        gatewayPayloads := [] } :=
  C7_thm ⟨"conv-2", "no thanks", some "u1", some "c@d.com",
    some "decline_ticket", some draftC2⟩ [] envC2 rfl

/-- C8: on a normal-flow turn (not approve-with-draft, not decline) whose
selected workflow runner raises, the stored history is left exactly as it
was — no partial message is appended — no gateway call is made, and the
caller receives an `HTTPException` failure instead of a normal response. -/
theorem C8_thm (req : ChatRequest) (db : List StoredMsg) (env : ChatEnv) (m : String)
    (h1 : (req.action == some "approve_ticket" && req.ticketData.isSome) = false)
    (h2 : (req.action == some "decline_ticket") = false)
    (hw : selectedWorkflow req env = .exc m) :
    (chat_endpoint req db env).db = db ∧
    isHttpError (chat_endpoint req db env).outcome = true ∧
    (chat_endpoint req db env).gatewayPayloads = [] := by
  have hred : chat_endpoint req db env =
      normalFlow req.conversationId req.message db (selectedWorkflow req env) := by
    unfold chat_endpoint
    cases hb : req.action == some "approve_ticket" with
    | false => cases req.ticketData <;> simp [hb, h2]
    | true =>
      rw [hb] at h1
      simp only [Bool.true_and] at h1
      cases htd : req.ticketData with
      | none => simp [hb, htd, h2]
      | some td => rw [htd] at h1; simp at h1
  rw [hred, hw]
  simp only [normalFlow]
  split_ifs <;> simp [isHttpError]

/-- C8 witness: a plain chat turn whose multi-agent workflow raises leaves
the (empty) history empty and yields an HTTP error. -/
theorem C8_witness :
    (chat_endpoint ⟨"conv-3", "hello there", none, none, none, none⟩ []
      ⟨.ok "x" false none, .exc "boom", goodCfg, okPost⟩).db = [] ∧
    isHttpError (chat_endpoint ⟨"conv-3", "hello there", none, none, none, none⟩ []
      ⟨.ok "x" false none, .exc "boom", goodCfg, okPost⟩).outcome = true ∧
    (chat_endpoint ⟨"conv-3", "hello there", none, none, none, none⟩ []
      ⟨.ok "x" false none, .exc "boom", goodCfg, okPost⟩).gatewayPayloads = [] :=
  C8_thm ⟨"conv-3", "hello there", none, none, none, none⟩ []
    ⟨.ok "x" false none, .exc "boom", goodCfg, okPost⟩ "boom"
    (by decide) (by decide) (by decide)

/-- C9: a request whose action is the approve signal but which carries no
ticket draft is handled exactly like the same request with no action at all —
it falls through to the normal chat flow (keyword selection on the message),
the approval path issues no gateway call, and no missing-draft error is
produced. -/
theorem C9_thm (req : ChatRequest) (db : List StoredMsg) (env : ChatEnv)
    (ha : req.action = some "approve_ticket") (ht : req.ticketData = none) :
    chat_endpoint req db env = chat_endpoint { req with action := none } db env ∧
    (chat_endpoint req db env).gatewayPayloads = [] := by
  have hred1 : chat_endpoint req db env =
      normalFlow req.conversationId req.message db (selectedWorkflow req env) := by
    unfold chat_endpoint
    rw [ha, ht]
    simp
  have hred2 : chat_endpoint { req with action := none } db env =
      normalFlow req.conversationId req.message db
        (selectedWorkflow { req with action := none } env) := by
    unfold chat_endpoint
    simp
  have hsel : selectedWorkflow { req with action := none } env =
      selectedWorkflow req env := rfl
  refine ⟨by rw [hred1, hred2, hsel], ?_⟩
  rw [hred1]
  cases hw : selectedWorkflow req env <;> simp [normalFlow]

/-- An HTTP 401 whose JSON body reports `invalid_credentials`. -/
def rCred : HttpResponse :=
  ⟨401, false, "request failed", some ⟨some "invalid_credentials", some "x", none⟩⟩

/-- A gateway that rejects the credentials. -/
def envCred : PostResult := .response rCred

/-- An unusable configuration (the API key is still the placeholder). -/
def badCfg : PyConfig := ⟨"yourco.freshdesk.com", "your-freshdesk-api-key-here"⟩

/-- A gateway failure whose raw error body adversarially contains the
success marker and the ticket-id pattern. -/
def envBadText : PostResult := .response ⟨400, false, "✅ ok Ticket ID:** #99", none⟩

/-- C5: for every action invocation the executors return a text observation
and never let an exception escape to the caller (both `create_support_ticket`
and `create_freshdesk_ticket`); and whenever the Ticketing Gateway answers
with the `invalid_credentials` error code, the returned text is the fixed
authentication-failure message of each executor, never the raw transport
error. -/
theorem C5_thm (subject description priority email : String) (cfg : PyConfig)
    (env : PostResult) (r : HttpResponse) (j : RespJson) (p : Int) :
    (exceptOk (create_support_ticketL subject description priority email cfg env).fst = true ∧
     exceptOk (create_freshdesk_ticketL subject description priority email cfg env).fst = true) ∧
    (cfgOK cfg = true → pyInt priority = some p → env = .response r → r.ok = false →
     r.jsonParse = some j → j.code = some "invalid_credentials" →
     (create_support_ticketL subject description priority email cfg env).fst =
       .ok "❌ Authentication failed with Freshdesk. Please check the API credentials." ∧
     (create_freshdesk_ticketL subject description priority email cfg env).fst =
       .ok "❌ Authentication failed with Freshdesk. Please check API credentials.") := by
  refine ⟨⟨create_support_ticketL_ok _ _ _ _ _ _, create_freshdesk_ticketL_ok _ _ _ _ _ _⟩, ?_⟩
  intro hc hp henv hok hj hcode
  subst henv
  have hbs : (create_support_ticketB subject description priority email cfg (.response r)).fst =
      .ok "❌ Authentication failed with Freshdesk. Please check the API credentials." := by
    simp [create_support_ticketB, hc, hp, hok, hj, hcode]
  have hbf : (create_freshdesk_ticketB subject description priority email cfg (.response r)).fst =
      .ok "❌ Authentication failed with Freshdesk. Please check API credentials." := by
    simp [create_freshdesk_ticketB, hc, hp, hok, hj, hcode]
  constructor
  · simp only [create_support_ticketL, hbs]
  · simp only [create_freshdesk_ticketL, hbf]

/-- C5 witness: a concrete invalid-credentials response yields exactly the
two fixed authentication-failure messages. -/
theorem C5_witness :
    (create_support_ticketL "s" "d" "2" "e@f.com" goodCfg envCred).fst =
      .ok "❌ Authentication failed with Freshdesk. Please check the API credentials." ∧
    (create_freshdesk_ticketL "s" "d" "2" "e@f.com" goodCfg envCred).fst =
      .ok "❌ Authentication failed with Freshdesk. Please check API credentials." :=
  (C5_thm "s" "d" "2" "e@f.com" goodCfg envCred rCred
    ⟨some "invalid_credentials", some "x", none⟩ 2).2
    (by decide) (by decide) rfl rfl rfl rfl

/-- C6 counterexample: a `fileTicket` invocation with priority `"7"` (outside
1–4) and empty subject, description and email is *not* rejected before the
gateway call — the Ticketing Gateway is contacted with exactly that invalid
payload, refuting the claimed pre-call validation. -/
theorem C6_cex :
    (create_support_ticketL "" "" "7" "" goodCfg okPost).snd = [⟨"", "", "", 7, 2⟩] ∧
    ¬((1 : Int) ≤ 7 ∧ (7 : Int) ≤ 4) := by
  decide

/-- C6 amended: the only argument checks before the gateway call are the
configuration guard and Python's `int(priority)` parse.  An unparseable
priority raises `ValueError`, which the handler converts to the generic
unexpected-error text without contacting the gateway; an unusable
configuration returns its fixed text without contacting the gateway.  No
1–4 range check and no non-emptiness checks exist: any parseable priority
and empty fields are forwarded to the gateway (see the counterexample). -/
theorem C6_thm (subject description priority email : String) (cfg : PyConfig)
    (env : PostResult) :
    (pyInt priority = none →
      (create_support_ticketL subject description priority email cfg env).snd = [] ∧
      (cfgOK cfg = true →
        (create_support_ticketL subject description priority email cfg env).fst =
          .ok "❌ I encountered an unexpected error while creating your ticket. Please contact our support team directly.")) ∧
    (cfgOK cfg = false →
      (create_support_ticketL subject description priority email cfg env).snd = [] ∧
      (create_support_ticketL subject description priority email cfg env).fst =
        .ok "I apologize, but I'm unable to create tickets at the moment due to configuration issues. Please contact support directly.") := by
  constructor
  · intro hp
    by_cases hc : cfgOK cfg = true
    · constructor
      · rw [create_support_ticketL_snd]
        simp [create_support_ticketB, hc, hp]
      · intro _
        have hb : (create_support_ticketB subject description priority email cfg env).fst =
            .error .valueError := by
          simp [create_support_ticketB, hc, hp]
        simp only [create_support_ticketL, hb]
    · rw [Bool.not_eq_true] at hc
      constructor
      · rw [create_support_ticketL_snd]
        simp [create_support_ticketB, hc]
      · intro hcc
        rw [hcc] at hc
        cases hc
  · intro hc
    have hb : (create_support_ticketB subject description priority email cfg env) =
        (.ok "I apologize, but I'm unable to create tickets at the moment due to configuration issues. Please contact support directly.", []) := by
      simp [create_support_ticketB, hc]
    constructor
    · rw [create_support_ticketL_snd, hb]
    · simp only [create_support_ticketL, hb]

/-- C6 witness: an unparseable priority (`"abc"`) yields the generic error
text and zero gateway calls. -/
theorem C6_witness :
    (create_support_ticketL "s" "d" "abc" "e@f.com" goodCfg okPost).snd = [] ∧
    (create_support_ticketL "s" "d" "abc" "e@f.com" goodCfg okPost).fst =
      .ok "❌ I encountered an unexpected error while creating your ticket. Please contact our support team directly." := by
  have h := (C6_thm "s" "d" "abc" "e@f.com" goodCfg okPost).1 (by decide)
  exact ⟨h.1, h.2 (by decide)⟩

/-- C10 counterexample: a gateway failure whose raw error body contains the
`✅` marker and the ticket-id pattern produces an observation that *begins
with* `❌` (a failure text) yet is reported as `success = true` with a
`ticketId` — so "every failure text, which begins with ❌, yields
ticketCreated false and no ticketId" is false as stated. -/
theorem C10_cex :
    (create_ticket_directlyL draftC2 "a@b.com" goodCfg envBadText).fst.content =
      "❌ Freshdesk API error 400: ✅ ok Ticket ID:** #99" ∧
    (create_ticket_directlyL draftC2 "a@b.com" goodCfg envBadText).fst.success = true ∧
    (create_ticket_directlyL draftC2 "a@b.com" goodCfg envBadText).fst.ticketId =
      some "99" := by
  decide

/-- C10 amended: the reported success flag is true exactly when the returned
observation contains the `✅` marker and the reported ticketId (and
ticketNumber) is exactly the `Ticket ID:** #(\w+)` capture of that
observation (`none` when absent); failure texts yield `success = false` and
no id *provided* the text does not itself contain the marker or the pattern —
which holds for all fixed failure messages (e.g. the configuration-failure
text below) but not for raw gateway error bodies interpolated into
`❌ Freshdesk API error ...` (see the counterexample). -/
theorem C10_thm (td : TicketData) (ue : String) (cfg : PyConfig) (env : PostResult) :
    (create_ticket_directlyL td ue cfg env).fst.success =
      hasCheck (create_ticket_directlyL td ue cfg env).fst.content ∧
    (create_ticket_directlyL td ue cfg env).fst.ticketId =
      findTicketId (create_ticket_directlyL td ue cfg env).fst.content ∧
    (create_ticket_directlyL td ue cfg env).fst.ticketNumber =
      (create_ticket_directlyL td ue cfg env).fst.ticketId ∧
    (cfgOK cfg = false →
      (create_ticket_directlyL td ue cfg env).fst.success = false ∧
      (create_ticket_directlyL td ue cfg env).fst.ticketId = none) := by
  refine ⟨?_, ?_, ?_, ?_⟩ <;>
    [skip; skip; skip;
     · intro hc
       have hfst : (create_freshdesk_ticketL td.subject td.description td.priority ue cfg env).fst =
           .ok "❌ Unable to create tickets due to configuration issues. Please contact support directly." := by
         have hb : (create_freshdesk_ticketB td.subject td.description td.priority ue cfg env).fst =
             .ok "❌ Unable to create tickets due to configuration issues. Please contact support directly." := by
           simp [create_freshdesk_ticketB, hc]
         simp only [create_freshdesk_ticketL, hb]
       constructor <;> simp [create_ticket_directlyL, hfst] <;> decide] <;>
  · unfold create_ticket_directlyL
    cases h : (create_freshdesk_ticketL td.subject td.description td.priority ue cfg env).fst <;>
      simp [h] <;> decide

/-- C10 witness: with the unusable configuration the fixed failure text is
reported with `success = false` and no ticket id. -/
theorem C10_witness :
    (create_ticket_directlyL draftC2 "a@b.com" badCfg okPost).fst.success = false ∧
    (create_ticket_directlyL draftC2 "a@b.com" badCfg okPost).fst.ticketId = none :=
  (C10_thm draftC2 "a@b.com" badCfg okPost).2.2.2 (by decide)

set_option maxHeartbeats 1600000 in
/-- C4 counterexample: with a model stub that always requests another
`create_support_ticket` action, the chatbot/tools graph run (at the runtime's
default recursion limit of 25 steps) ends in a raised `GraphRecursionError`,
not in a turn-ending degraded reply — the code has no round limit of its own
and no "unable to complete automatically" path. -/
theorem C4_cex :
    isRecursionError (runChatbotLoop
      (fun _ => GMsg.aiMsg "" [⟨"create_support_ticket"⟩])
      (fun _ => "observation") 25 []) = true := by
  decide

/-- C4 amended: for every model stub that always requests exactly one action,
the chatbot/tools loop still terminates for every step budget — it cannot
hang — but it ends by exhausting the runtime recursion limit and raising
`GraphRecursionError` (which propagates to the caller as a failure), rather
than producing a degraded reply; and it appends at most `fuel` messages
beyond the initial history. -/
theorem C4_thm (stub : List GMsg → GMsg) (exec : ToolCall → String)
    (hstub : ∀ h : List GMsg, (toolCallsOf (stub h)).length = 1) :
    ∀ (fuel : Nat) (msgs : List GMsg),
      isRecursionError (runChatbotLoop stub exec fuel msgs) = true ∧
      (msgsOf (runChatbotLoop stub exec fuel msgs)).length ≤ msgs.length + fuel := by
  intro fuel
  induction fuel using Nat.strong_induction_on with
  | _ fuel ih =>
    intro msgs
    obtain ⟨a, l, hal⟩ : ∃ a l, toolCallsOf (stub msgs) = a :: l := by
      cases h : toolCallsOf (stub msgs) with
      | nil => exfalso; have := hstub msgs; rw [h] at this; simp at this
      | cons a l => exact ⟨a, l, rfl⟩
    have hl : l = [] := by
      have := hstub msgs
      rw [hal] at this
      simpa using this
    subst hl
    have hsc : should_continue (msgs ++ [stub msgs]) = true := by
      simp [should_continue, List.getLast?_concat, hal]
    match fuel with
    | 0 =>
      constructor
      · rfl
      · simp [runChatbotLoop, msgsOf]
    | 1 =>
      simp only [runChatbotLoop, hsc, if_true]
      constructor
      · rfl
      · simp [msgsOf]
    | (fuel1 + 2) =>
      simp only [runChatbotLoop, hsc, if_true, hal, List.map_cons, List.map_nil]
      have hrec := ih fuel1 (by omega) ((msgs ++ [stub msgs]) ++ [GMsg.toolResult (exec a)])
      refine ⟨hrec.1, ?_⟩
      have := hrec.2
      simp only [List.length_append, List.length_cons, List.length_nil] at this ⊢
      omega

/-- C4 witness: the amended theorem at the concrete always-requesting stub
and the default recursion limit. -/
theorem C4_witness :
    isRecursionError (runChatbotLoop
      (fun _ => GMsg.aiMsg "" [⟨"create_support_ticket"⟩])
      (fun _ => "observation") 25 []) = true ∧
    (msgsOf (runChatbotLoop
      (fun _ => GMsg.aiMsg "" [⟨"create_support_ticket"⟩])
      (fun _ => "observation") 25 [])).length ≤ ([] : List GMsg).length + 25 :=
  C4_thm (fun _ => GMsg.aiMsg "" [⟨"create_support_ticket"⟩])
    (fun _ => "observation") (fun _ => rfl) 25 []

/-- C9 witness: a concrete approve-without-draft request behaves exactly like
the plain chat request and files nothing. -/
theorem C9_witness :
    chat_endpoint ⟨"conv-4", "thanks", some "u", some "e@f.com",
        some "approve_ticket", none⟩ [] envC2 =
      chat_endpoint ⟨"conv-4", "thanks", some "u", some "e@f.com",
        none, none⟩ [] envC2 ∧
    (chat_endpoint ⟨"conv-4", "thanks", some "u", some "e@f.com",
        some "approve_ticket", none⟩ [] envC2).gatewayPayloads = [] :=
  C9_thm ⟨"conv-4", "thanks", some "u", some "e@f.com",
    some "approve_ticket", none⟩ [] envC2 rfl rfl

end Fixie
